import Mathlib

/-!
Verification development for the Sanrakshan student storage system.

The definitions below are a shallow embedding of the Python/Django source:

* `storage/models.py` — `StorageEntry` (status state machine, `claim_items`,
  `cancel_storage`, `save`/`clean`) and `StoredItem` (`clean`);
* `unique_codes/models.py` — `QRCodeImage` (the unique-code record,
  `generate_unique_code`, `generate_qr_image`);
* `unique_codes/views.py` — `verify_code`, `process_claim`, `get_qr_data`;
* `storage/views.py` — `KeepStuffView.form_valid` (entry creation).

Django machinery is embedded as explicit state passing: a model instance is a
structure, the database is a list of persisted records, raising an exception is
returning `Except.error`, and `random.choices` is fed an explicit stream of
draws.  Timestamps are `Nat` (`timezone.now()` becomes an explicit `now`
argument).
-/

namespace Sanrakshan

/-- The four `STATUS_CHOICES` of `StorageEntry` (storage/models.py). -/
inductive Status where
  | active
  | claimed
  | expired
  | cancelled
deriving DecidableEq, Repr

/-- String form of a status, as interpolated into Python error messages. -/
def statusStr : Status → String
  | .active => "active"
  | .claimed => "claimed"
  | .expired => "expired"
  | .cancelled => "cancelled"

/-- Exceptions raised by the embedded code.  `validationError` is Django's
`ValidationError` (the spec's taxonomy calls the state-machine instance of it
`InvalidTransitionError`); `attributeError` is Python's `AttributeError`;
`doesNotExist` is a Django `DoesNotExist` lookup failure. -/
inductive PyError where
  | validationError (msg : String)
  | attributeError (attr : String)
  | doesNotExist
deriving DecidableEq, Repr

/-- The fields of `StorageEntry` relevant to the lifecycle claims:
`status`, `claimed_at` (nullable timestamp) and `staff_notes`
(storage/models.py lines 79-120). -/
structure StorageEntry where
  status : Status
  claimed_at : Option Nat
  staff_notes : String
deriving DecidableEq, Repr

/-- A freshly created entry: `status` defaults to `'active'`, `claimed_at` is
null, `staff_notes` blank (storage/models.py field defaults). -/
def new_entry : StorageEntry := ⟨Status.active, none, ""⟩

/-- `StorageEntry.clean` (storage/models.py lines 147-155): for an existing
object, changing status away from `'claimed'` raises `ValidationError`.
`old` is the persisted instance fetched by primary key, `e` the instance
being validated. -/
def entry_clean (old e : StorageEntry) : Except PyError Unit :=
  if old.status = Status.claimed ∧ e.status ≠ Status.claimed then
    Except.error (PyError.validationError "Cannot change status of already claimed items")
  else
    Except.ok ()

/-- `StorageEntry.save` (storage/models.py lines 157-173): runs `full_clean`
(which calls `clean` against the persisted instance `old`), then auto-sets
`claimed_at` when status is `'claimed'` and `claimed_at` is not yet set, then
persists.  QR-payload regeneration touches only `qr_code_data`, which no claim
mentions, so it is not modelled. -/
def entry_save (now : Nat) (old e : StorageEntry) : Except PyError StorageEntry := do
  _ ← entry_clean old e
  let e := if e.status = Status.claimed ∧ e.claimed_at = none then
             { e with claimed_at := some now }
           else e
  Except.ok e

/-- `StorageEntry.claim_items` (storage/models.py lines 185-212): raises
`ValidationError` unless status is `'active'`; otherwise sets status to
`'claimed'`, `claimed_at` to now, appends the `"Claimed by"` audit note when
`claimed_by` is given, and saves.  (The QR-code deactivation it also performs
lives on the workflow state and is modelled in `claim_items_wf` below.) -/
def claim_items (now : Nat) (claimed_by : Option String) (e : StorageEntry) :
    Except PyError StorageEntry :=
  if e.status ≠ Status.active then
    Except.error (PyError.validationError
      ("Cannot claim items with status: " ++ statusStr e.status))
  else
    let e1 : StorageEntry := { e with status := Status.claimed, claimed_at := some now }
    let e2 : StorageEntry :=
      match claimed_by with
      | some u =>
          { e1 with staff_notes :=
              e1.staff_notes ++ "\nClaimed by: " ++ u ++ " at " ++ toString now }
      | none => e1
    entry_save now e e2

/-- `StorageEntry.cancel_storage` (storage/models.py lines 214-223): raises
`ValidationError` only when status is `'claimed'`; otherwise sets status to
`'cancelled'`, appends the cancellation reason to `staff_notes` when one is
given, and saves. -/
def cancel_storage (now : Nat) (reason : String) (e : StorageEntry) :
    Except PyError StorageEntry :=
  if e.status = Status.claimed then
    Except.error (PyError.validationError "Cannot cancel already claimed items")
  else
    let e1 : StorageEntry := { e with status := Status.cancelled }
    let e2 : StorageEntry :=
      if reason ≠ "" then
        { e1 with staff_notes :=
            if e1.staff_notes ≠ "" then e1.staff_notes ++ "\nCancelled: " ++ reason
            else "Cancelled: " ++ reason }
      else e1
    entry_save now e e2

/-- A ledger operation on a single persisted entry: `claim_items`,
`cancel_storage`, or a bare `save` of the persisted state. -/
inductive LedgerOp where
  | claim (now : Nat) (claimed_by : Option String)
  | cancel (now : Nat) (reason : String)
  | save (now : Nat)
deriving DecidableEq, Repr

/-- Run one ledger operation against the persisted entry `e`.  A raised
exception aborts before anything is persisted, so an error leaves the
persisted state unchanged. -/
def applyOp (e : StorageEntry) : LedgerOp → StorageEntry
  | LedgerOp.claim now cb =>
      match claim_items now cb e with
      | Except.ok e2 => e2
      | Except.error _ => e
  | LedgerOp.cancel now r =>
      match cancel_storage now r e with
      | Except.ok e2 => e2
      | Except.error _ => e
  | LedgerOp.save now =>
      match entry_save now e e with
      | Except.ok e2 => e2
      | Except.error _ => e

/-- Run a sequence of ledger operations starting from a freshly created entry. -/
def runOps (ops : List LedgerOp) : StorageEntry :=
  ops.foldl applyOp new_entry

/-- The C1 invariant: `claimed_at` is set iff status is `'claimed'`. -/
def claimInv (e : StorageEntry) : Prop :=
  e.claimed_at ≠ none ↔ e.status = Status.claimed

/-! ## Code Registry (unique_codes/models.py) -/

/-- Python `str.replace(old, '')` with a single-character `old`: removes every
occurrence. -/
def pyRemove (s : String) (c : Char) : String :=
  String.mk (s.toList.filter (fun ch => ch ≠ c))

/-- `string.ascii_uppercase`. -/
def ascii_uppercase : String := "ABCDEFGHIJKLMNOPQRSTUVWXYZ"

/-- `string.digits`. -/
def digits : String := "0123456789"

/-- The sampling alphabet of `generate_unique_code`
(unique_codes/models.py line 79):
`string.ascii_uppercase + string.digits.replace('0', '').replace('O', '')`.
Both `replace` calls apply to `string.digits` only. -/
def code_chars : List Char :=
  (ascii_uppercase ++ pyRemove (pyRemove digits '0') 'O').toList

/-- One output of `random.choices(chars, k=8)`: eight characters, each drawn
from `code_chars`. -/
def validDraw (d : List Char) : Prop :=
  d.length = 8 ∧ ∀ c ∈ d, c ∈ code_chars

instance (d : List Char) : Decidable (validDraw d) := by
  unfold validDraw; infer_instance

/-- `f"{code[:4]}-{code[4:]}"` applied to the joined draw. -/
def formatCode (d : List Char) : String :=
  String.mk (d.take 4) ++ "-" ++ String.mk (d.drop 4)

/-- `QRCodeImage.generate_unique_code` (unique_codes/models.py lines 76-85):
loops drawing a candidate, formats it, and accepts it only if no existing
`QRCodeImage` row holds that code.  The random stream is the explicit list
`draws`; `none` means the stream was exhausted before a fresh code appeared
(the Python loop would keep drawing). -/
def generate_unique_code (existing : List String) : List (List Char) → Option String
  | [] => none
  | d :: ds =>
      let formatted := formatCode d
      if formatted ∈ existing then generate_unique_code existing ds
      else some formatted

/-- The `QRCodeImage` record (unique_codes/models.py lines 13-68), the
spec's `UniqueCode`: the code string, its generation timestamp and the
active flag. -/
structure QRCodeImage where
  code : String
  generated_at : Nat
  is_active : Bool
deriving DecidableEq, Repr

/-- `QRCodeImage.generate_qr_image` (unique_codes/models.py lines 87-100):
if a code already exists and `regenerate` is false, return it unchanged;
otherwise mint a fresh code, stamp `generated_at`, save, and return it.
Result is the returned code string paired with the saved record. -/
def generate_qr_image (qr : QRCodeImage) (regenerate : Bool)
    (existing : List String) (draws : List (List Char)) (now : Nat) :
    Option (String × QRCodeImage) :=
  if qr.code ≠ "" ∧ regenerate = false then some (qr.code, qr)
  else
    (generate_unique_code existing draws).map
      (fun c => (c, { qr with code := c, generated_at := now }))

/-- Sequential issuance of several codes: each call checks its candidate
against every code already in the table, including those issued earlier in
the same run (the `objects.filter(code=...).exists()` check ranges over all
rows). -/
def issue_codes (existing : List String) :
    List (List (List Char)) → Option (List String)
  | [] => some []
  | ds :: rest =>
      match generate_unique_code existing ds with
      | none => none
      | some c =>
          match issue_codes (c :: existing) rest with
          | none => none
          | some cs => some (c :: cs)

/-! ## Stored items and entry creation (storage/models.py, storage/views.py) -/

/-- A `StoredItem` row (storage/models.py lines 268-331): name, category,
quantity and description.  Quantity is `Int` so that the `clean` validation
on non-positive values is expressible. -/
structure StoredItem where
  item_name : String
  category : String
  quantity : Int
  description : String
deriving DecidableEq, Repr

/-- `StoredItem.clean` (storage/models.py lines 333-338): raises
`ValidationError` when quantity is not positive.  `full_clean` runs it on
every `StoredItem.save`. -/
def stored_item_clean (it : StoredItem) : Except PyError Unit :=
  if it.quantity ≤ 0 then
    Except.error (PyError.validationError "Quantity must be greater than 0")
  else
    Except.ok ()

/-- A persisted storage entry together with its items, as seen by the
creation flow. -/
structure PersistedEntry where
  entry : StorageEntry
  items : List StoredItem
deriving DecidableEq, Repr

/-- Saving the item list of a new entry: each `item.save()` runs
`full_clean`, so the first invalid quantity raises and (inside
`transaction.atomic`) rolls the whole creation back. -/
def save_items : List StoredItem → Except PyError (List StoredItem)
  | [] => Except.ok []
  | it :: rest =>
      match stored_item_clean it with
      | Except.error e => Except.error e
      | Except.ok _ =>
          match save_items rest with
          | Except.error e => Except.error e
          | Except.ok saved => Except.ok (it :: saved)

/-- `KeepStuffView.form_valid` (storage/views.py lines 153-224), the spec's
`create_entry`.  Inside `transaction.atomic`: the entry is saved with default
status `'active'`, the submitted items are saved one by one (an item
validation error aborts and rolls back), and if zero items were created the
entry is deleted and the request fails with the at-least-one-item message.
An `Except.error` result models the rolled-back transaction: the database
list `db` is unchanged. -/
def create_entry (specs : List StoredItem) (db : List PersistedEntry) :
    Except PyError (List PersistedEntry) :=
  match save_items specs with
  | Except.error e => Except.error e
  | Except.ok saved =>
      if saved.length = 0 then
        Except.error (PyError.validationError "Please add at least one item to store.")
      else
        Except.ok (db ++ [⟨new_entry, saved⟩])

/-! ## Claim Workflow (unique_codes/views.py) -/

/-- A `QRScan` audit row (unique_codes/models.py lines 103-142): the fields
the claims mention. -/
structure ScanEvent where
  action_taken : String
  is_valid : Bool
  notes : String
deriving DecidableEq, Repr

/-- The state touched by the claim workflow for one entry: the
`StorageEntry`, its one-to-one `QRCodeImage` (possibly missing), and the
append-only list of scan events. -/
structure WorkflowState where
  entry : StorageEntry
  qr : Option QRCodeImage
  scans : List ScanEvent
deriving DecidableEq, Repr

/-- `StorageEntry.claim_items` at workflow level (storage/models.py lines
185-212): the ledger transition of `claim_items` above, followed by the
QR-code deactivation, whose failure the bare `except: pass` swallows (a
missing code record leaves the state as the ledger write left it). -/
def claim_items_wf (now : Nat) (claimed_by : Option String) (s : WorkflowState) :
    Except PyError WorkflowState :=
  match claim_items now claimed_by s.entry with
  | Except.error e => Except.error e
  | Except.ok e2 =>
      let qr2 :=
        match s.qr with
        | some q => some { q with is_active := false }
        | none => none
      Except.ok { s with entry := e2, qr := qr2 }

/-- Responses of the `process_claim` view. -/
inductive ClaimResponse where
  | cannotClaim
  | errorJson
  | success (claimed_at : Nat)
deriving DecidableEq, Repr

/-- `process_claim` (unique_codes/views.py lines 157-203): rejects non-active
entries; otherwise calls `claim_items`, appends staff notes when given (with a
second save), then reads `storage_entry.qr_code` and inserts the
`'item_claimed_manual'` scan.  There is no enclosing transaction: writes made
before a later exception stay persisted, and the broad `except` converts the
exception into an error JSON response. -/
def process_claim (now : Nat) (user : String) (notes : String) (s : WorkflowState) :
    ClaimResponse × WorkflowState :=
  if s.entry.status ≠ Status.active then (ClaimResponse.cannotClaim, s)
  else
    match claim_items_wf now (some user) s with
    | Except.error _ => (ClaimResponse.errorJson, s)
    | Except.ok s1 =>
        let s2 :=
          if notes ≠ "" then
            { s1 with entry :=
                { s1.entry with staff_notes :=
                    s1.entry.staff_notes ++ "\nClaim notes: " ++ notes } }
          else s1
        match s2.qr with
        | none =>
            -- `storage_entry.qr_code` raises DoesNotExist, caught by the
            -- broad `except Exception`; the claim writes above persist.
            (ClaimResponse.errorJson, s2)
        | some _ =>
            (ClaimResponse.success (s2.entry.claimed_at.getD now),
             { s2 with scans := s2.scans ++ [⟨"item_claimed_manual", true, notes⟩] })

/-- One row of the code table as `verify_code` sees it: the code record, its
entry, the entry items and the scan history. -/
structure CodeRecord where
  qr : QRCodeImage
  entry : StorageEntry
  items : List StoredItem
  scans : List ScanEvent
deriving DecidableEq, Repr

/-- Responses of the `verify_code` view. -/
inductive VerifyResponse where
  | noCode
  | invalidCode
  | deactivated
  | success (can_claim : Bool)
deriving DecidableEq, Repr

/-- `verify_code` (unique_codes/views.py lines 88-154): empty input is
rejected; an unknown code yields the invalid-code response; a deactivated
code yields the distinct deactivated response; otherwise a
`'staff_verification_manual'` scan row is inserted and entry data is
returned read-only with `can_claim = (status == 'active')`. -/
def verify_code (c : String) (db : List CodeRecord) :
    VerifyResponse × List CodeRecord :=
  if c = "" then (VerifyResponse.noCode, db)
  else
    match db.find? (fun r => r.qr.code = c) with
    | none => (VerifyResponse.invalidCode, db)
    | some r =>
        if r.qr.is_active = false then (VerifyResponse.deactivated, db)
        else
          (VerifyResponse.success (decide (r.entry.status = Status.active)),
           db.map (fun t =>
             if t.qr.code = c then
               { t with scans := t.scans ++ [⟨"staff_verification_manual", true, ""⟩] }
             else t))

/-! ## get_qr_data (unique_codes/views.py lines 235-284) -/

/-- The attributes `StorageEntry` defines (fields, properties and methods of
storage/models.py lines 36-265).  Python resolves `storage_entry.<name>`
against this set; any other name raises `AttributeError`. -/
def storageEntryAttrs : List String :=
  ["student", "entry_id", "description", "status", "created_at", "claimed_at",
   "updated_at", "qr_code_data", "storage_location", "staff_notes", "objects",
   "clean", "save", "get_absolute_url", "claim_items", "cancel_storage",
   "generate_qr_data", "get_items_list", "get_total_items", "get_unique_items",
   "is_active", "is_claimed", "days_in_storage", "qr_code", "items"]

/-- Responses of the `get_qr_data` view. -/
inductive QRDataResponse where
  | claimedInfo
  | fullData (qr_active : Bool)
  | notFound
deriving DecidableEq, Repr

/-- `get_qr_data` (unique_codes/views.py lines 235-284): reads
`storage_entry.qr_code` (a missing record raises `DoesNotExist`, caught at
the bottom as the not-found response).  For a claimed entry it builds the
limited `claimed_info` payload, whose `claimed_by` field evaluates
`storage_entry.claimed_by` — an attribute `StorageEntry` does not define —
so Python raises `AttributeError`, which the handler (catching only
`QRCodeImage.DoesNotExist`) does not intercept.  Otherwise it returns the
full data payload. -/
def get_qr_data (e : StorageEntry) (qr : Option QRCodeImage) :
    Except PyError QRDataResponse :=
  match qr with
  | none => Except.ok QRDataResponse.notFound
  | some q =>
      if e.status = Status.claimed then
        if "claimed_by" ∈ storageEntryAttrs then Except.ok QRDataResponse.claimedInfo
        else Except.error (PyError.attributeError "claimed_by")
      else
        Except.ok (QRDataResponse.fullData q.is_active)

/-! ## Helper lemmas -/

/-- A bare save of the persisted state only auto-fills a missing
`claimed_at` on a claimed entry. -/
theorem entry_save_self (now : Nat) (e : StorageEntry) :
    entry_save now e e =
      Except.ok (if e.status = Status.claimed ∧ e.claimed_at = none then
                   { e with claimed_at := some now }
                 else e) := by
  unfold entry_save entry_clean
  have h : ¬ (e.status = Status.claimed ∧ e.status ≠ Status.claimed) := by
    rintro ⟨h1, h2⟩; exact h2 h1
  simp only [h, if_false]
  rfl

/-- `claim_items` on a non-active entry raises before mutating anything. -/
theorem claim_items_not_active (now : Nat) (cb : Option String) (e : StorageEntry)
    (h : e.status ≠ Status.active) :
    claim_items now cb e =
      Except.error (PyError.validationError
        ("Cannot claim items with status: " ++ statusStr e.status)) := by
  unfold claim_items
  simp [h]

/-- `claim_items` on an active entry: the saved record is claimed, stamped,
and carries the audit note when `claimed_by` is present. -/
theorem claim_items_active (now : Nat) (cb : Option String) (e : StorageEntry)
    (h : e.status = Status.active) :
    claim_items now cb e =
      Except.ok
        { status := Status.claimed, claimed_at := some now,
          staff_notes :=
            match cb with
            | some u => e.staff_notes ++ "\nClaimed by: " ++ u ++ " at " ++ toString now
            | none => e.staff_notes } := by
  unfold claim_items entry_save entry_clean
  have h1 : ¬ e.status ≠ Status.active := fun hc => hc h
  have h2 : ¬ (e.status = Status.claimed ∧ Status.claimed ≠ Status.claimed) := by
    rintro ⟨-, hc⟩; exact hc rfl
  cases cb <;> simp [h1, h, h2] <;> rfl

/-- `cancel_storage` on a claimed entry raises before mutating anything. -/
theorem cancel_storage_claimed (now : Nat) (r : String) (e : StorageEntry)
    (h : e.status = Status.claimed) :
    cancel_storage now r e =
      Except.error (PyError.validationError "Cannot cancel already claimed items") := by
  unfold cancel_storage
  simp [h]

/-- `cancel_storage` on a non-claimed entry: the saved record is cancelled,
`claimed_at` untouched, `staff_notes` extended by the reason when given. -/
theorem cancel_storage_not_claimed (now : Nat) (r : String) (e : StorageEntry)
    (h : e.status ≠ Status.claimed) :
    cancel_storage now r e =
      Except.ok
        { status := Status.cancelled, claimed_at := e.claimed_at,
          staff_notes :=
            if r ≠ "" then
              (if e.staff_notes ≠ "" then e.staff_notes ++ "\nCancelled: " ++ r
               else "Cancelled: " ++ r)
            else e.staff_notes } := by
  unfold cancel_storage entry_save entry_clean
  have h2 : ¬ (e.status = Status.claimed ∧ Status.cancelled ≠ Status.claimed) := by
    rintro ⟨hc, -⟩; exact h hc
  by_cases hr : r = "" <;> by_cases hn : e.staff_notes = "" <;>
    simp [h, h2, hr, hn] <;> rfl

/-- Every single ledger operation preserves the C1 invariant. -/
theorem claimInv_applyOp (e : StorageEntry) (op : LedgerOp) (h : claimInv e) :
    claimInv (applyOp e op) := by
  unfold claimInv at h ⊢
  cases op with
  | claim now cb =>
      by_cases ha : e.status = Status.active
      · rw [applyOp, claim_items_active now cb e ha]
        cases cb <;> simp
      · rw [applyOp, claim_items_not_active now cb e ha]
        exact h
  | cancel now r =>
      by_cases hc : e.status = Status.claimed
      · rw [applyOp, cancel_storage_claimed now r e hc]
        exact h
      · rw [applyOp, cancel_storage_not_claimed now r e hc]
        have hnone : e.claimed_at = none := by
          by_contra hne
          exact hc (h.mp hne)
        simp [hnone]
  | save now =>
      rw [applyOp, entry_save_self now e]
      by_cases hcl : e.status = Status.claimed ∧ e.claimed_at = none
      · simp [hcl]
      · simpa [hcl] using h

/-! ## Claim theorems -/

/-- C1: for every sequence of ledger operations (starting from a created
entry, using `claim_items`, `cancel_storage` and `save`), the resulting
persisted entry satisfies `claimed_at ≠ none ↔ status = claimed`: claiming
sets `claimed_at`, and no operation leaves a claimed entry without a
timestamp or a non-claimed entry with one. -/
theorem claimedAt_iff_claimed_over_ops (ops : List LedgerOp) :
    claimInv (runOps ops) := by
  have H : ∀ (l : List LedgerOp) (e : StorageEntry),
      claimInv e → claimInv (l.foldl applyOp e) := by
    intro l
    induction l with
    | nil => intro e h; simpa using h
    | cons op rest ih =>
        intro e h
        exact ih (applyOp e op) (claimInv_applyOp e op h)
  exact H ops new_entry (by unfold claimInv new_entry; decide)

/-- C2: the claim flow is not atomic.  At the failing input — an active
entry with no associated code record — `process_claim` persists the
`claim_items` ledger write (status becomes `'claimed'`), then the
`storage_entry.qr_code` lookup raises, the broad `except` returns the error
JSON, and no `'item_claimed_manual'` audit event is ever inserted: a final
state with the claim recorded but no claim audit event is reachable. -/
theorem process_claim_partial_write_at_missing_code :
    (process_claim 5 "staff" "" ⟨⟨Status.active, none, ""⟩, none, []⟩).1 =
        ClaimResponse.errorJson
    ∧ (process_claim 5 "staff" "" ⟨⟨Status.active, none, ""⟩, none, []⟩).2.entry.status =
        Status.claimed
    ∧ (process_claim 5 "staff" "" ⟨⟨Status.active, none, ""⟩, none, []⟩).2.scans = [] := by
  refine ⟨rfl, rfl, rfl⟩

/-- C3: the sampling alphabet of `generate_unique_code` removes `'0'` and
`'O'` only from `string.digits`, so the letter `'O'` remains a valid draw:
a run of eight `'O'` draws is a legal output of `random.choices` and
produces the accepted code `"OOOO-OOOO"`, which contains `'O'` — refuting
the claim that `'O'` never occurs in a generated code. -/
theorem generated_code_contains_letter_O :
    validDraw (List.replicate 8 'O')
    ∧ generate_unique_code [] [List.replicate 8 'O'] = some "OOOO-OOOO"
    ∧ 'O' ∈ "OOOO-OOOO".toList := by
  refine ⟨by decide, by decide, by decide⟩

/-- C4: `claim_items` on an entry whose status is not `'active'` fails with
the transition `ValidationError` and leaves the persisted state unchanged;
on an active entry it saves the record with status `'claimed'`, `claimed_at`
set to now, and the `"Claimed by"` audit note appended. -/
theorem claim_items_transition_spec (now : Nat) (u : String) (e : StorageEntry) :
    (e.status ≠ Status.active →
      claim_items now (some u) e =
        Except.error (PyError.validationError
          ("Cannot claim items with status: " ++ statusStr e.status))
      ∧ applyOp e (LedgerOp.claim now (some u)) = e)
    ∧ (e.status = Status.active →
      claim_items now (some u) e =
        Except.ok
          { status := Status.claimed, claimed_at := some now,
            staff_notes :=
              e.staff_notes ++ "\nClaimed by: " ++ u ++ " at " ++ toString now }) := by
  constructor
  · intro hna
    refine ⟨claim_items_not_active now (some u) e hna, ?_⟩
    rw [applyOp, claim_items_not_active now (some u) e hna]
  · intro ha
    exact claim_items_active now (some u) e ha

/-- Witness for C4 at concrete inputs: an already-claimed entry is rejected
unchanged, and a fresh active entry is claimed with the audit note. -/
theorem claim_items_transition_spec_witness :
    (claim_items 9 (some "staff") ⟨Status.claimed, some 2, ""⟩ =
        Except.error (PyError.validationError "Cannot claim items with status: claimed")
      ∧ applyOp ⟨Status.claimed, some 2, ""⟩ (LedgerOp.claim 9 (some "staff")) =
          ⟨Status.claimed, some 2, ""⟩)
    ∧ claim_items 9 (some "staff") new_entry =
        Except.ok ⟨Status.claimed, some 9, "\nClaimed by: staff at 9"⟩ := by
  constructor
  · exact (claim_items_transition_spec 9 "staff" ⟨Status.claimed, some 2, ""⟩).1 (by decide)
  · exact (claim_items_transition_spec 9 "staff" new_entry).2 rfl

/-- C5 counterexample: the claim says re-cancelling an already-cancelled
entry fails, but `cancel_storage` only rejects status `'claimed'`: on a
cancelled entry it succeeds, re-saving status `'cancelled'` with another
note. -/
theorem cancel_cancelled_succeeds :
    cancel_storage 7 "again" ⟨Status.cancelled, none, ""⟩ =
      Except.ok ⟨Status.cancelled, none, "Cancelled: again"⟩ := by
  rfl

/-- C5 amended: `cancel_storage` fails with the transition `ValidationError`
exactly when status is `'claimed'` (leaving the persisted state unchanged);
on any non-claimed entry — active, expired or already cancelled — it
succeeds and saves status `'cancelled'` with `claimed_at` untouched; and no
ledger operation moves an entry out of `'claimed'` or `'cancelled'`. -/
theorem cancel_storage_spec (now : Nat) (r : String) (e : StorageEntry) :
    (e.status = Status.claimed →
      cancel_storage now r e =
        Except.error (PyError.validationError "Cannot cancel already claimed items")
      ∧ applyOp e (LedgerOp.cancel now r) = e)
    ∧ (e.status ≠ Status.claimed →
      ∃ notes, cancel_storage now r e =
        Except.ok { status := Status.cancelled, claimed_at := e.claimed_at,
                    staff_notes := notes })
    ∧ (∀ op : LedgerOp,
        e.status = Status.claimed ∨ e.status = Status.cancelled →
        (applyOp e op).status = e.status) := by
  refine ⟨?_, ?_, ?_⟩
  · intro hc
    refine ⟨cancel_storage_claimed now r e hc, ?_⟩
    rw [applyOp, cancel_storage_claimed now r e hc]
  · intro hnc
    exact ⟨_, cancel_storage_not_claimed now r e hnc⟩
  · intro op hterm
    have hna : e.status ≠ Status.active := by
      rcases hterm with hc | hc <;> rw [hc] <;> decide
    cases op with
    | claim n cb =>
        rw [applyOp, claim_items_not_active n cb e hna]
    | cancel n rr =>
        rcases hterm with hc | hc
        · rw [applyOp, cancel_storage_claimed n rr e hc]
        · have hnc : e.status ≠ Status.claimed := by rw [hc]; decide
          rw [applyOp, cancel_storage_not_claimed n rr e hnc, hc]
    | save n =>
        rw [applyOp, entry_save_self n e]
        by_cases hcl : e.status = Status.claimed ∧ e.claimed_at = none <;> simp [hcl]

/-- Witness for C5 amended at concrete inputs: cancelling a claimed entry
fails unchanged, cancelling an active entry succeeds, and the claim
operation does not move a cancelled entry. -/
theorem cancel_storage_spec_witness :
    (cancel_storage 4 "x" ⟨Status.claimed, some 1, ""⟩ =
        Except.error (PyError.validationError "Cannot cancel already claimed items")
      ∧ applyOp ⟨Status.claimed, some 1, ""⟩ (LedgerOp.cancel 4 "x") =
          ⟨Status.claimed, some 1, ""⟩)
    ∧ (∃ notes, cancel_storage 4 "x" new_entry =
        Except.ok { status := Status.cancelled, claimed_at := none,
                    staff_notes := notes })
    ∧ (applyOp ⟨Status.cancelled, none, ""⟩ (LedgerOp.claim 4 (some "s"))).status =
        Status.cancelled := by
  refine ⟨(cancel_storage_spec 4 "x" ⟨Status.claimed, some 1, ""⟩).1 rfl, ?_, ?_⟩
  · exact (cancel_storage_spec 4 "x" new_entry).2.1 (by decide)
  · exact (cancel_storage_spec 4 "x" ⟨Status.cancelled, none, ""⟩).2.2
      (LedgerOp.claim 4 (some "s")) (Or.inr rfl)

/-- C7: code issuance is idempotent — when a code string is already present
and `regenerate` is false, `generate_qr_image` returns the existing code and
the record is unchanged (same code, same `generated_at`, nothing new
minted). -/
theorem generate_qr_image_idempotent (qr : QRCodeImage) (existing : List String)
    (draws : List (List Char)) (now : Nat) (h : qr.code ≠ "") :
    generate_qr_image qr false existing draws now = some (qr.code, qr) := by
  unfold generate_qr_image
  simp [h]

/-- Witness for C7: a record already holding `"ABCD-EFGH"` is returned
as-is. -/
theorem generate_qr_image_idempotent_witness :
    generate_qr_image ⟨"ABCD-EFGH", 3, true⟩ false [] [] 99 =
      some ("ABCD-EFGH", ⟨"ABCD-EFGH", 3, true⟩) := by
  exact generate_qr_image_idempotent ⟨"ABCD-EFGH", 3, true⟩ [] [] 99 (by decide)

/-- C10: for every claimed entry that has an associated code record,
`get_qr_data` evaluates `storage_entry.claimed_by` — an attribute
`StorageEntry` does not define — so the call raises `AttributeError`
(uncaught: the `try` only handles the missing-code case) instead of
returning the deactivated-code summary. -/
theorem get_qr_data_claimed_attribute_error (e : StorageEntry) (q : QRCodeImage)
    (h : e.status = Status.claimed) :
    get_qr_data e (some q) = Except.error (PyError.attributeError "claimed_by") := by
  unfold get_qr_data
  have hmem : ¬ ("claimed_by" ∈ storageEntryAttrs) := by decide
  simp [h, hmem]

/-- Witness for C10 at a concrete claimed entry with a deactivated code. -/
theorem get_qr_data_claimed_attribute_error_witness :
    get_qr_data ⟨Status.claimed, some 3, ""⟩ (some ⟨"AAAA-BBBB", 0, false⟩) =
      Except.error (PyError.attributeError "claimed_by") := by
  exact get_qr_data_claimed_attribute_error ⟨Status.claimed, some 3, ""⟩
    ⟨"AAAA-BBBB", 0, false⟩ rfl

/-- A code accepted by the generation loop was checked against, and is not
among, the existing codes. -/
theorem generate_unique_code_fresh (existing : List String) :
    ∀ (draws : List (List Char)) (c : String),
      generate_unique_code existing draws = some c → c ∉ existing := by
  intro draws
  induction draws with
  | nil => intro c hc; simp [generate_unique_code] at hc
  | cons d ds ih =>
      intro c hc
      unfold generate_unique_code at hc
      by_cases hmem : formatCode d ∈ existing
      · rw [if_pos hmem] at hc
        exact ih c hc
      · rw [if_neg hmem] at hc
        cases hc
        exact hmem

/-- C6: codes issued by repeated `generate_unique_code` calls are pairwise
distinct and distinct from every pre-existing code, because each candidate
is checked against all codes already in the table (including those issued
earlier in the run) before acceptance. -/
theorem issue_codes_all_distinct :
    ∀ (dss : List (List (List Char))) (existing : List String) (cs : List String),
      issue_codes existing dss = some cs →
      cs.Nodup ∧ ∀ c ∈ cs, c ∉ existing := by
  intro dss
  induction dss with
  | nil =>
      intro existing cs hc
      simp [issue_codes] at hc
      subst hc
      exact ⟨List.nodup_nil, by intro c hc; cases hc⟩
  | cons ds rest ih =>
      intro existing cs hc
      unfold issue_codes at hc
      cases hg : generate_unique_code existing ds with
      | none => simp only [hg] at hc; exact Option.noConfusion hc
      | some c =>
          simp only [hg] at hc
          cases hr : issue_codes (c :: existing) rest with
          | none => simp only [hr] at hc; exact Option.noConfusion hc
          | some cs2 =>
              simp only [hr, Option.some.injEq] at hc
              subst hc
              obtain ⟨hnd, hfresh⟩ := ih (c :: existing) cs2 hr
              have hcnot : c ∉ existing := generate_unique_code_fresh existing ds c hg
              refine ⟨List.nodup_cons.mpr ⟨?_, hnd⟩, ?_⟩
              · intro hmem
                exact (hfresh c hmem) (List.mem_cons_self c existing)
              · intro x hx
                rcases List.mem_cons.mp hx with hxc | hxs
                · rw [hxc]; exact hcnot
                · intro hxe
                  exact (hfresh x hxs) (List.mem_cons_of_mem c hxe)

/-- Witness for C6: two issuances against a one-row table, where the second
run first draws a collision with the first issued code and retries; the
theorem yields distinctness of the results. -/
theorem issue_codes_all_distinct_witness :
    issue_codes ["ABCD-EFGH"]
        [[['Z','B','C','D','E','F','G','H']],
         [['Z','B','C','D','E','F','G','H'], ['Y','B','C','D','E','F','G','H']]] =
      some ["ZBCD-EFGH", "YBCD-EFGH"]
    ∧ (["ZBCD-EFGH", "YBCD-EFGH"] : List String).Nodup
    ∧ ∀ c ∈ (["ZBCD-EFGH", "YBCD-EFGH"] : List String), c ∉ (["ABCD-EFGH"] : List String) := by
  have h := issue_codes_all_distinct
    [[['Z','B','C','D','E','F','G','H']],
     [['Z','B','C','D','E','F','G','H'], ['Y','B','C','D','E','F','G','H']]]
    ["ABCD-EFGH"] ["ZBCD-EFGH", "YBCD-EFGH"] (by decide)
  exact ⟨by decide, h.1, h.2⟩

/-- If any submitted item has a non-positive quantity, saving the item list
raises the quantity `ValidationError`. -/
theorem save_items_bad_quantity :
    ∀ (specs : List StoredItem), (∃ it ∈ specs, it.quantity ≤ 0) →
      save_items specs =
        Except.error (PyError.validationError "Quantity must be greater than 0") := by
  intro specs
  induction specs with
  | nil => rintro ⟨it, hmem, -⟩; cases hmem
  | cons s rest ih =>
      rintro ⟨it, hmem, hq⟩
      unfold save_items stored_item_clean
      by_cases hs : s.quantity ≤ 0
      · simp [hs]
      · rcases List.mem_cons.mp hmem with hit | hit
        · exact absurd (hit ▸ hq) hs
        · have hrest := ih ⟨it, hit, hq⟩
          simp [hs, hrest]

/-- A successful item save returns the items unchanged. -/
theorem save_items_ok_eq :
    ∀ (specs saved : List StoredItem), save_items specs = Except.ok saved →
      saved = specs := by
  intro specs
  induction specs with
  | nil => intro saved h; cases h; rfl
  | cons s rest ih =>
      intro saved h
      unfold save_items at h
      cases hcl : stored_item_clean s with
      | error e => simp only [hcl] at h; exact Except.noConfusion h
      | ok u =>
          simp only [hcl] at h
          cases hr : save_items rest with
          | error e => simp only [hr] at h; exact Except.noConfusion h
          | ok saved2 =>
              simp only [hr, Except.ok.injEq] at h
              subst h
              rw [ih saved2 hr]

/-- C8: creation with an empty item list fails with the at-least-one-item
validation message; creation where some item has quantity ≤ 0 fails with the
quantity `ValidationError` (the enclosing `transaction.atomic` rolls back,
so an error result leaves the database as it was); and every successful
creation appends exactly one entry, with status `'active'` and at least one
stored item. -/
theorem create_entry_spec (db : List PersistedEntry) (specs : List StoredItem) :
    (specs = [] →
      create_entry specs db =
        Except.error (PyError.validationError "Please add at least one item to store."))
    ∧ ((∃ it ∈ specs, it.quantity ≤ 0) →
      create_entry specs db =
        Except.error (PyError.validationError "Quantity must be greater than 0"))
    ∧ (∀ db2, create_entry specs db = Except.ok db2 →
      ∃ pe, db2 = db ++ [pe] ∧ pe.entry.status = Status.active ∧ 1 ≤ pe.items.length) := by
  refine ⟨?_, ?_, ?_⟩
  · intro hnil
    subst hnil
    rfl
  · intro hbad
    unfold create_entry
    rw [save_items_bad_quantity specs hbad]
  · intro db2 hok
    unfold create_entry at hok
    cases hs : save_items specs with
    | error e => simp only [hs] at hok; exact Except.noConfusion hok
    | ok saved =>
        simp only [hs] at hok
        by_cases hlen : saved.length = 0
        · rw [if_pos hlen] at hok; cases hok
        · rw [if_neg hlen] at hok
          cases hok
          refine ⟨⟨new_entry, saved⟩, rfl, rfl, ?_⟩
          exact Nat.one_le_iff_ne_zero.mpr hlen

/-- Witness for C8 at concrete inputs: empty creation fails, a zero-quantity
item fails, and a one-laptop creation yields an active entry with one item. -/
theorem create_entry_spec_witness :
    create_entry [] [] =
      Except.error (PyError.validationError "Please add at least one item to store.")
    ∧ create_entry [⟨"Pen", "misc", 0, ""⟩] [] =
      Except.error (PyError.validationError "Quantity must be greater than 0")
    ∧ ∃ pe, ([⟨new_entry, [⟨"Laptop", "electronics", 1, ""⟩]⟩] : List PersistedEntry)
          = [] ++ [pe]
        ∧ pe.entry.status = Status.active ∧ 1 ≤ pe.items.length := by
  refine ⟨(create_entry_spec [] []).1 rfl, ?_, ?_⟩
  · exact (create_entry_spec [] [⟨"Pen", "misc", 0, ""⟩]).2.1
      ⟨⟨"Pen", "misc", 0, ""⟩, List.mem_singleton.mpr rfl, by decide⟩
  · exact (create_entry_spec [] [⟨"Laptop", "electronics", 1, ""⟩]).2.2
      [⟨new_entry, [⟨"Laptop", "electronics", 1, ""⟩]⟩] rfl

/-- The view of a code-table row without its scan history. -/
def recordView (r : CodeRecord) : StorageEntry × QRCodeImage × List StoredItem :=
  (r.entry, r.qr, r.items)

/-- C9: the verification-only entry point never mutates stored state — for
every input code string and every code table, each row's `StorageEntry`
(status, `claimed_at`, `staff_notes`), code record and item list are
identical before and after `verify_code`; only scan-event audit rows may be
added. -/
theorem verify_code_preserves_entries (c : String) (db : List CodeRecord) :
    ((verify_code c db).2).map recordView = db.map recordView := by
  unfold verify_code
  split
  · rfl
  · split
    · rfl
    · split
      · rfl
      · rw [List.map_map]
        apply List.map_congr_left
        intro t _
        by_cases ht : t.qr.code = c <;> simp [ht, recordView]

end Sanrakshan
